import Mathlib

/-!
# Verification of the evidence-gated vendor-evaluation pipeline

A shallow embedding of the core of the HackUTD2025 vendor-evaluation
backend (`backend/services`), together with proofs about the properties
stated in its specification.

Modelling conventions:
* Python strings are Lean `String`s; the Python string operations used by
  the code (`lower`, `replace`, `split`, `strip`, `in`, slicing, `join`)
  are re-implemented below over `List Char` with fuel-free structural
  recursion so that every definition evaluates inside the kernel.
  `lower` is modelled on ASCII letters, which covers every string the
  code compares (the only non-ASCII data in the code is an opaque
  mojibake literal that is carried through unchanged).
* Python floats are modelled as `Rat`.  `round(x, 2)` is modelled as
  round-half-to-even on `100 * x` (`pyRound2`), matching CPython on all
  non-tie values.
* Python dicts keyed by strings are association lists; dicts used as
  records are structures, with `.get(k, default)` folded into `Option`
  fields.
-/

/-- Python `needle in haystack` (substring containment) on char lists. -/
def inAux (needle : List Char) : List Char → Bool
  | [] => needle.isEmpty
  | c :: rest => needle.isPrefixOf (c :: rest) || inAux needle rest

/-- Python `needle in haystack` for strings. -/
def pyIn (needle haystack : String) : Bool :=
  inAux needle.data haystack.data

/-- Python `str.lower()` (ASCII). -/
def pyLower (s : String) : String :=
  ⟨s.data.map Char.toLower⟩

/-- Helper for `pyReplace`; the fuel (initially the length of the string)
only bounds the recursion and never runs out for a non-empty pattern. -/
def replaceAux (old new : List Char) : Nat → List Char → List Char
  | _, [] => []
  | 0, s => s
  | fuel + 1, c :: rest =>
    if old.isPrefixOf (c :: rest) then
      new ++ replaceAux old new fuel ((c :: rest).drop old.length)
    else
      c :: replaceAux old new fuel rest

/-- Python `s.replace(old, new)` (left-to-right, non-overlapping).  The
source never calls `replace` with an empty pattern, for which we return
`s` unchanged. -/
def pyReplace (s old new : String) : String :=
  if old.data.isEmpty then s else ⟨replaceAux old.data new.data s.data.length s.data⟩

/-- ASCII whitespace, the only whitespace occurring in the data the code
splits. -/
def isPyWs (c : Char) : Bool :=
  c = ' ' || c = '\t' || c = '\n' || c = '\r' || c = '\x0b' || c = '\x0c'

/-- Helper for `pySplitWs` (accumulator holds the current word reversed). -/
def splitWsAux (acc : List Char) : List Char → List (List Char)
  | [] => if acc.isEmpty then [] else [acc.reverse]
  | c :: rest =>
    if isPyWs c then
      if acc.isEmpty then splitWsAux [] rest
      else acc.reverse :: splitWsAux [] rest
    else splitWsAux (c :: acc) rest

/-- Python `str.split()` with no argument: split on runs of whitespace,
dropping empty pieces. -/
def pySplitWs (s : String) : List String :=
  (splitWsAux [] s.data).map String.mk

/-- Helper for `pySplitChar`. -/
def splitOnCharAux (sep : Char) : List Char → List (List Char)
  | [] => [[]]
  | c :: rest =>
    if c = sep then [] :: splitOnCharAux sep rest
    else
      match splitOnCharAux sep rest with
      | [] => [[c]]
      | h :: t => (c :: h) :: t

/-- Python `str.split(sep)` for a one-character separator (keeps empty
pieces). -/
def pySplitChar (s : String) (sep : Char) : List String :=
  (splitOnCharAux sep s.data).map String.mk

/-- Python `str.strip()`. -/
def pyStrip (s : String) : String :=
  ⟨((s.data.dropWhile isPyWs).reverse.dropWhile isPyWs).reverse⟩

/-- Python `sep.join(xs)`. -/
def pyJoin (sep : String) : List String → String
  | [] => ""
  | [x] => x
  | x :: xs => x ++ sep ++ pyJoin sep xs

/-- Python `str.startswith`. -/
def pyStartsWith (pre s : String) : Bool :=
  pre.data.isPrefixOf s.data

/-- Python `s[:n]` (code-point slicing). -/
def pyTake (n : Nat) (s : String) : String :=
  ⟨s.data.take n⟩

/-- Round-half-to-even to an integer (CPython `round` tie behaviour). -/
def roundHalfEven (x : Rat) : Int :=
  let f := Int.floor x
  let frac := x - (f : Rat)
  if frac < 1 / 2 then f
  else if 1 / 2 < frac then f + 1
  else if f % 2 = 0 then f else f + 1

/-- Python `round(x, 2)`. -/
def pyRound2 (x : Rat) : Rat :=
  ((roundHalfEven (x * 100) : Int) : Rat) / 100

attribute [local semireducible] Rat.mul Rat.inv Rat.add Rat.sub

/-!
## Data model

`Source` mirrors the source dictionaries collected by
`NemotronClient.research_vendor_info` and stored in `BaseAgent.sources`:
the status-determination and requirement-alignment logic reads only the
`credibility` and `content` keys.
-/

structure Source where
  credibility : String
  content : String
  deriving DecidableEq

/-- Embeds `[s for s in self.sources if s.get("credibility") == "official"]`,
shared by all four `_determine_status_and_score` methods. -/
def officialSources (sources : List Source) : List Source :=
  sources.filter (fun s => s.credibility == "official")

/-- Embeds `any(kw in f.lower() for kw in kws)`. -/
def findingMatchesAny (kws : List String) (f : String) : Bool :=
  kws.any (fun kw => pyIn kw (pyLower f))

/-- Embeds `[f for f in findings if any(kw in f.lower() for kw in kws)]`. -/
def matchingFindings (kws : List String) (findings : List String) : List String :=
  findings.filter (findingMatchesAny kws)

/-- Positive keyword set of `ComplianceAgent._determine_status_and_score`. -/
def compliancePositiveKws : List String :=
  ["certified", "compliant", "supports", "provides", "available"]

/-- Negative keyword set of `ComplianceAgent._determine_status_and_score`. -/
def complianceNegativeKws : List String :=
  ["not", "unable", "unclear", "unavailable", "no"]

namespace ComplianceAgent

/-- Embeds `ComplianceAgent._determine_status_and_score`
(`backend/services/agents/compliance_agent.py`, lines 207-245). -/
def determineStatusAndScore (sources : List Source) (findings : List String) :
    String × Option Rat :=
  let official := officialSources sources
  if sources.length = 0 ∨ official.length = 0 then ("insufficient_data", none)
  else
    let positive := matchingFindings compliancePositiveKws findings
    let negative := matchingFindings complianceNegativeKws findings
    if negative.length > positive.length ∧ 1 ≤ official.length then ("risk", some (3 / 2))
    else if 0 < positive.length then
      if 4 ≤ positive.length ∧ negative.length = 0 then ("ok", some (9 / 2))
      else if 3 ≤ positive.length ∧ negative.length ≤ 1 then ("ok", some (7 / 2))
      else if 2 ≤ positive.length then ("ok", some 3)
      else ("ok", some (5 / 2))
    else ("insufficient_data", none)

end ComplianceAgent

/-- Positive keyword set of `InteroperabilityAgent._determine_status_and_score`. -/
def interopPositiveKws : List String :=
  ["supports", "available", "provides", "native", "comprehensive", "documented"]

/-- Negative keyword set of `InteroperabilityAgent._determine_status_and_score`. -/
def interopNegativeKws : List String :=
  ["not", "unable", "unclear", "unavailable", "undocumented"]

namespace InteroperabilityAgent

/-- Embeds `InteroperabilityAgent._determine_status_and_score`
(`backend/services/agents/interoperability_agent.py`, lines 157-192). -/
def determineStatusAndScore (sources : List Source)
    (findings requirements : List String) : String × Option Rat :=
  let official := officialSources sources
  if sources.length = 0 ∨ official.length = 0 then ("insufficient_data", none)
  else
    let positive := matchingFindings interopPositiveKws findings
    let negative := matchingFindings interopNegativeKws findings
    let requirementsRatio : Rat :=
      if requirements ≠ [] then
        ((requirements.filter
            (fun req => findings.any (fun f => pyIn (pyLower req) (pyLower f)))).length : Rat)
          / (requirements.length : Rat)
      else 1
    if negative.length > positive.length ∧ requirementsRatio < 1 / 2 then
      ("risk", some (3 / 2))
    else if 0 < positive.length then
      let baseScore : Rat :=
        ((positive.length : Rat) - (negative.length : Rat) * (1 / 2))
          / (findings.length : Rat) * 4
      let score := baseScore + requirementsRatio * 1
      ("ok", some (max 2 (min 5 score)))
    else ("insufficient_data", none)

end InteroperabilityAgent

/-- Positive keyword set of `AdoptionAgent._determine_status_and_score`. -/
def adoptionPositiveKws : List String :=
  ["24/7", "comprehensive", "excellent", "extensive", "robust", "available",
   "certification", "training"]

/-- Negative keyword set of `AdoptionAgent._determine_status_and_score`. -/
def adoptionNegativeKws : List String :=
  ["limited", "not", "unable", "unclear", "unavailable", "poor"]

namespace AdoptionAgent

/-- Embeds `AdoptionAgent._determine_status_and_score`
(`backend/services/agents/adoption_agent.py`, lines 104-124). -/
def determineStatusAndScore (sources : List Source) (findings : List String) :
    String × Option Rat :=
  let official := officialSources sources
  if sources.length = 0 ∨ official.length = 0 then ("insufficient_data", none)
  else
    let positive := matchingFindings adoptionPositiveKws findings
    let negative := matchingFindings adoptionNegativeKws findings
    if negative.length > positive.length then ("risk", some (3 / 2))
    else if 0 < positive.length then
      let score : Rat :=
        ((positive.length : Rat) - (negative.length : Rat) * (1 / 2))
          / (findings.length : Rat) * 5
      ("ok", some (max 2 (min 5 score)))
    else ("insufficient_data", none)

end AdoptionAgent

/-- The two fields of the `tco` dictionary built by
`FinanceAgent._estimate_tco` that `_determine_status_and_score` reads. -/
structure TcoEstimate where
  threeYearTotal : Rat
  userCount : Nat
  deriving DecidableEq

namespace FinanceAgent

/-- Embeds `FinanceAgent._determine_status_and_score`
(`backend/services/agents/finance_agent.py`, lines 106-139).  The
`findings` parameter is unused by the Python body as well. -/
def determineStatusAndScore (sources : List Source) (findings : List String)
    (tco : TcoEstimate) : String × Option Rat :=
  let official := officialSources sources
  if sources.length = 0 ∨ official.length = 0 then ("insufficient_data", none)
  else
    let perUserMonthly : Rat := tco.threeYearTotal / ((tco.userCount : Rat) * 36)
    let costScore : Rat :=
      if perUserMonthly < 50 then 5
      else if perUserMonthly < 100 then 4
      else if perUserMonthly < 150 then 3
      else if perUserMonthly < 200 then 5 / 2
      else 2
    let transparencyBonus : Rat := if 2 ≤ official.length then 1 / 2 else 0
    let score := min 5 (costScore + transparencyBonus)
    if perUserMonthly > 250 ∧ official.length = 0 then ("risk", some (3 / 2))
    else ("ok", some score)

end FinanceAgent

/-- The list `officialSources` never selects more sources than were collected. -/
theorem officialSources_length_le (sources : List Source) :
    (officialSources sources).length ≤ sources.length :=
  List.length_filter_le _ _

/-- If no collected source is official, the shared guard of all four
status-determination methods fires. -/
theorem noEvidence_guard (sources : List Source)
    (h : sources = [] ∨ ∀ s ∈ sources, s.credibility ≠ "official") :
    sources.length = 0 ∨ (officialSources sources).length = 0 := by
  rcases h with h | h
  · exact Or.inl (by simp [h])
  · refine Or.inr ?_
    have : officialSources sources = [] := by
      simp only [officialSources, List.filter_eq_nil_iff]
      intro s hs
      simpa using h s hs
    simp [this]

/-- **C1**: for every dimension evaluator (compliance, interoperability,
finance, adoption), if the list of collected sources is empty, or no
collected source has credibility `"official"`, then
`_determine_status_and_score` returns status `"insufficient_data"` with
no score — never `"ok"` and never `"risk"`. -/
theorem noEvidence_insufficientData (sources : List Source)
    (findings requirements : List String) (tco : TcoEstimate)
    (h : sources = [] ∨ ∀ s ∈ sources, s.credibility ≠ "official") :
    ComplianceAgent.determineStatusAndScore sources findings
      = ("insufficient_data", none) ∧
    InteroperabilityAgent.determineStatusAndScore sources findings requirements
      = ("insufficient_data", none) ∧
    FinanceAgent.determineStatusAndScore sources findings tco
      = ("insufficient_data", none) ∧
    AdoptionAgent.determineStatusAndScore sources findings
      = ("insufficient_data", none) := by
  have hg := noEvidence_guard sources h
  refine ⟨?_, ?_, ?_, ?_⟩ <;>
    simp only [ComplianceAgent.determineStatusAndScore,
      InteroperabilityAgent.determineStatusAndScore,
      FinanceAgent.determineStatusAndScore,
      AdoptionAgent.determineStatusAndScore, if_pos hg]

/-- Witness for `noEvidence_insufficientData` at a concrete input. -/
theorem noEvidence_insufficientData_witness :
    (([] : List Source) = [] ∨ ∀ s ∈ ([] : List Source), s.credibility ≠ "official") ∧
    ComplianceAgent.determineStatusAndScore [] ["supports SSO"]
      = ("insufficient_data", none) :=
  ⟨Or.inl rfl,
   (noEvidence_insufficientData [] ["supports SSO"] [] ⟨0, 300⟩ (Or.inl rfl)).1⟩

/-!
## Score boundedness and status/score coupling
-/

/-- Rounding half-to-even of a non-negative rational is non-negative. -/
theorem roundHalfEven_nonneg (y : Rat) (hy : 0 ≤ y) : 0 ≤ roundHalfEven y := by
  have hf : 0 ≤ Int.floor y := Int.floor_nonneg.mpr hy
  unfold roundHalfEven
  dsimp only
  split_ifs <;> omega

/-- Rounding half-to-even never exceeds the ceiling. -/
theorem roundHalfEven_le_ceil (y : Rat) : roundHalfEven y ≤ Int.ceil y := by
  have hfc : Int.floor y ≤ Int.ceil y := Int.floor_le_ceil y
  have hfl : (Int.floor y : Rat) ≤ y := Int.floor_le y
  unfold roundHalfEven
  dsimp only
  split_ifs with h1 h2 h3
  · exact hfc
  · have : (Int.floor y : Rat) < y := by linarith
    have := Int.lt_ceil.mpr this
    omega
  · have : (Int.floor y : Rat) < y := by linarith
    have := Int.lt_ceil.mpr this
    omega
  · have : (Int.floor y : Rat) < y := by linarith
    have := Int.lt_ceil.mpr this
    omega

/-- Rounding to two decimals maps `[0, 5]` into `[0, 5]`. -/
theorem pyRound2_mem_Icc (x : Rat) (h0 : 0 ≤ x) (h5 : x ≤ 5) :
    0 ≤ pyRound2 x ∧ pyRound2 x ≤ 5 := by
  have hr0 : 0 ≤ roundHalfEven (x * 100) := roundHalfEven_nonneg _ (by linarith)
  have hrc : roundHalfEven (x * 100) ≤ Int.ceil (x * 100) := roundHalfEven_le_ceil _
  have hc : Int.ceil (x * 100) ≤ 500 := Int.ceil_le.mpr (by push_cast; linarith)
  have hr5 : roundHalfEven (x * 100) ≤ 500 := le_trans hrc hc
  constructor
  · unfold pyRound2
    positivity
  · unfold pyRound2
    rw [div_le_iff₀ (by norm_num)]
    have hcast : ((roundHalfEven (x * 100) : Int) : Rat) ≤ 500 := by exact_mod_cast hr5
    linarith

/-- Rounding half-to-even is within one half of its argument. -/
theorem roundHalfEven_close (y : Rat) : |((roundHalfEven y : Int) : Rat) - y| ≤ 1 / 2 := by
  have hfl : (Int.floor y : Rat) ≤ y := Int.floor_le y
  have hfu : y < (Int.floor y : Rat) + 1 := Int.lt_floor_add_one y
  unfold roundHalfEven
  dsimp only
  split_ifs with h1 h2 h3 <;> rw [abs_le] <;> constructor <;> push_cast <;> linarith

/-- Rounding to two decimals is within `0.005` of its argument. -/
theorem pyRound2_close (x : Rat) : |pyRound2 x - x| ≤ 1 / 200 := by
  have h := roundHalfEven_close (x * 100)
  unfold pyRound2
  have hrw : ((roundHalfEven (x * 100) : Int) : Rat) / 100 - x
      = (((roundHalfEven (x * 100) : Int) : Rat) - x * 100) / 100 := by ring
  rw [hrw, abs_div]
  rw [abs_of_pos (show (0 : Rat) < 100 by norm_num)]
  rw [div_le_iff₀ (by norm_num)]
  linarith

/-- The status/score invariant of a `(status, score)` pair: a numeric score in
`[0, 5]` exactly when the status is not `"insufficient_data"`. -/
def scoreInv (r : String × Option Rat) : Prop :=
  (r.1 ≠ "insufficient_data" → ∃ x, r.2 = some x ∧ 0 ≤ x ∧ x ≤ 5) ∧
  (r.1 = "insufficient_data" → r.2 = none)

theorem scoreInv_of_some (st : String) (x : Rat) (h0 : 0 ≤ x) (h5 : x ≤ 5)
    (hne : st ≠ "insufficient_data") : scoreInv (st, some x) :=
  ⟨fun _ => ⟨x, rfl, h0, h5⟩, fun h => absurd h hne⟩

theorem scoreInv_insufficient : scoreInv ("insufficient_data", none) :=
  ⟨fun h => absurd rfl h, fun _ => rfl⟩

/-- Clamp bounds for the `max(2.0, min(5.0, score))` pattern. -/
theorem clamp25_bounds (x : Rat) : 0 ≤ max 2 (min 5 x) ∧ max 2 (min 5 x) ≤ 5 :=
  ⟨le_trans (by norm_num) (le_max_left _ _), max_le (by norm_num) (min_le_left _ _)⟩

/-- The (status, score) pair that `BaseAgent.create_structured_output` stores in
the agent dimension output: the status unchanged and the score rounded to two
decimals (`"score": round(score, 2) if score is not None else None`). -/
def dimensionOutputOf (r : String × Option Rat) : String × Option Rat :=
  (r.1, r.2.map pyRound2)

theorem scoreInv_dimensionOutputOf (r : String × Option Rat) (h : scoreInv r) :
    scoreInv (dimensionOutputOf r) := by
  obtain ⟨h1, h2⟩ := h
  constructor
  · intro hst
    obtain ⟨x, hx, h0, h5⟩ := h1 hst
    exact ⟨pyRound2 x, by simp [dimensionOutputOf, hx],
      (pyRound2_mem_Icc x h0 h5).1, (pyRound2_mem_Icc x h0 h5).2⟩
  · intro hst
    have := h2 hst
    simp [dimensionOutputOf, this]

theorem scoreInv_compliance (sources : List Source) (findings : List String) :
    scoreInv (ComplianceAgent.determineStatusAndScore sources findings) := by
  unfold ComplianceAgent.determineStatusAndScore
  dsimp only
  split_ifs <;>
    first
      | exact scoreInv_insufficient
      | exact scoreInv_of_some _ _ (by norm_num) (by norm_num) (by decide)

theorem scoreInv_interoperability (sources : List Source)
    (findings requirements : List String) :
    scoreInv (InteroperabilityAgent.determineStatusAndScore sources findings requirements) := by
  unfold InteroperabilityAgent.determineStatusAndScore
  dsimp only
  split_ifs <;>
    first
      | exact scoreInv_insufficient
      | exact scoreInv_of_some _ _ (by norm_num) (by norm_num) (by decide)

theorem scoreInv_adoption (sources : List Source) (findings : List String) :
    scoreInv (AdoptionAgent.determineStatusAndScore sources findings) := by
  unfold AdoptionAgent.determineStatusAndScore
  dsimp only
  split_ifs <;>
    first
      | exact scoreInv_insufficient
      | exact scoreInv_of_some _ _ (by norm_num) (by norm_num) (by decide)

theorem scoreInv_finance (sources : List Source) (findings : List String)
    (tco : TcoEstimate) :
    scoreInv (FinanceAgent.determineStatusAndScore sources findings tco) := by
  unfold FinanceAgent.determineStatusAndScore
  dsimp only
  by_cases hg : sources.length = 0 ∨ (officialSources sources).length = 0
  · rw [if_pos hg]
    exact scoreInv_insufficient
  · rw [if_neg hg]
    set per := tco.threeYearTotal / ((tco.userCount : Rat) * 36) with hper
    set cost := (if per < 50 then (5 : Rat) else if per < 100 then 4
      else if per < 150 then 3 else if per < 200 then 5 / 2 else 2) with hcost
    set bonus := (if 2 ≤ (officialSources sources).length then (1 : Rat) / 2 else 0)
      with hbonus
    have hcost2 : 2 ≤ cost := by rw [hcost]; split_ifs <;> norm_num
    have hbonus0 : 0 ≤ bonus := by rw [hbonus]; split_ifs <;> norm_num
    by_cases hr : per > 250 ∧ (officialSources sources).length = 0
    · rw [if_pos hr]
      exact scoreInv_of_some _ _ (by norm_num) (by norm_num) (by decide)
    · rw [if_neg hr]
      refine scoreInv_of_some _ _ ?_ (min_le_left _ _) (by decide)
      exact le_min (by norm_num) (by linarith)

/-- **C2**: for every dimension output produced by the four evaluators, if the
status is not `"insufficient_data"` then a numeric score in `[0, 5]` is
present; if the status is `"insufficient_data"` the score is absent.  The
invariant holds both for the raw `(status, score)` pair returned by
`_determine_status_and_score` and for the pair stored in the structured output
(where the score is rounded to two decimals).  The hypothesis on the user
count excludes the division by zero on which the Python code would raise
instead of returning. -/
theorem dimensionOutput_score_invariant (sources : List Source)
    (findings requirements : List String) (tco : TcoEstimate)
    (huc : 0 < tco.userCount) :
    scoreInv (dimensionOutputOf (ComplianceAgent.determineStatusAndScore sources findings)) ∧
    scoreInv (dimensionOutputOf
      (InteroperabilityAgent.determineStatusAndScore sources findings requirements)) ∧
    scoreInv (dimensionOutputOf (FinanceAgent.determineStatusAndScore sources findings tco)) ∧
    scoreInv (dimensionOutputOf (AdoptionAgent.determineStatusAndScore sources findings)) :=
  ⟨scoreInv_dimensionOutputOf _ (scoreInv_compliance sources findings),
   scoreInv_dimensionOutputOf _ (scoreInv_interoperability sources findings requirements),
   scoreInv_dimensionOutputOf _ (scoreInv_finance sources findings tco),
   scoreInv_dimensionOutputOf _ (scoreInv_adoption sources findings)⟩

/-- Witness for `dimensionOutput_score_invariant` at a concrete input. -/
theorem dimensionOutput_score_invariant_witness :
    scoreInv (dimensionOutputOf
      (ComplianceAgent.determineStatusAndScore [⟨"official", ""⟩] ["certified x"])) ∧
    scoreInv (dimensionOutputOf
      (InteroperabilityAgent.determineStatusAndScore [⟨"official", ""⟩] ["certified x"] [])) ∧
    scoreInv (dimensionOutputOf
      (FinanceAgent.determineStatusAndScore [⟨"official", ""⟩] ["certified x"] ⟨360000, 300⟩)) ∧
    scoreInv (dimensionOutputOf
      (AdoptionAgent.determineStatusAndScore [⟨"official", ""⟩] ["certified x"])) :=
  dimensionOutput_score_invariant [⟨"official", ""⟩] ["certified x"] [] ⟨360000, 300⟩
    (by norm_num)

/-- **C10**: the finance evaluator never returns status `"risk"`: its risk
branch requires zero official sources, a condition that already returned
`("insufficient_data", none)` earlier, so the status is always `"ok"` or
`"insufficient_data"`. -/
theorem finance_never_risk (sources : List Source) (findings : List String)
    (tco : TcoEstimate) (huc : 0 < tco.userCount) :
    (FinanceAgent.determineStatusAndScore sources findings tco).1 ≠ "risk" ∧
    ((FinanceAgent.determineStatusAndScore sources findings tco).1 = "ok" ∨
     (FinanceAgent.determineStatusAndScore sources findings tco).1 = "insufficient_data") := by
  unfold FinanceAgent.determineStatusAndScore
  dsimp only
  by_cases hg : sources.length = 0 ∨ (officialSources sources).length = 0
  · rw [if_pos hg]
    exact ⟨by decide, Or.inr rfl⟩
  · rw [if_neg hg]
    push_neg at hg
    by_cases hr : tco.threeYearTotal / ((tco.userCount : Rat) * 36) > 250 ∧
        (officialSources sources).length = 0
    · exact absurd hr.2 hg.2
    · rw [if_neg hr]
      refine ⟨fun h => ?_, Or.inl rfl⟩
      dsimp only at h
      exact absurd h (by decide)

/-- Witness for `finance_never_risk` at a concrete input. -/
theorem finance_never_risk_witness :
    (FinanceAgent.determineStatusAndScore [⟨"official", ""⟩] [] ⟨360000, 300⟩).1 ≠ "risk" :=
  (finance_never_risk [⟨"official", ""⟩] [] ⟨360000, 300⟩ (by norm_num)).1

/-- **C6, counterexample**: the claimed risk rule does not hold for every
dimension evaluator.  With one official source and findings whose
compliance-keyword classification gives more negatives (2) than positives (1),
the interoperability evaluator returns `("ok", 7/3)` — it uses different
keyword sets and additionally requires a requirement-coverage ratio below one
half before reporting risk. -/
theorem keywordRisk_not_universal :
    1 ≤ (officialSources [⟨"official", ""⟩]).length ∧
    (matchingFindings compliancePositiveKws ["no x", "no y", "supports z"]).length <
      (matchingFindings complianceNegativeKws ["no x", "no y", "supports z"]).length ∧
    InteroperabilityAgent.determineStatusAndScore [⟨"official", ""⟩]
      ["no x", "no y", "supports z"] [] = ("ok", some (7 / 3)) ∧
    InteroperabilityAgent.determineStatusAndScore [⟨"official", ""⟩]
      ["no x", "no y", "supports z"] [] ≠ ("risk", some (3 / 2)) := by
  decide

/-- **C6, amended**: for the *compliance* evaluator, when at least one
collected source has official credibility and the findings classified negative
by its keyword set outnumber the findings classified positive, the returned
status is `"risk"` with the fixed score `1.5`. -/
theorem compliance_risk_on_negative_majority (sources : List Source)
    (findings : List String)
    (hoff : 1 ≤ (officialSources sources).length)
    (hneg : (matchingFindings compliancePositiveKws findings).length <
            (matchingFindings complianceNegativeKws findings).length) :
    ComplianceAgent.determineStatusAndScore sources findings = ("risk", some (3 / 2)) := by
  have hlen : sources.length ≠ 0 := by
    have := officialSources_length_le sources
    omega
  have hg : ¬(sources.length = 0 ∨ (officialSources sources).length = 0) := by
    push_neg
    exact ⟨hlen, by omega⟩
  unfold ComplianceAgent.determineStatusAndScore
  dsimp only
  rw [if_neg hg, if_pos ⟨hneg, hoff⟩]

/-- Witness for `compliance_risk_on_negative_majority` at a concrete input. -/
theorem compliance_risk_on_negative_majority_witness :
    ComplianceAgent.determineStatusAndScore [⟨"official", ""⟩] ["not verified"]
      = ("risk", some (3 / 2)) :=
  compliance_risk_on_negative_majority [⟨"official", ""⟩] ["not verified"]
    (by decide) (by decide)

/-!
## Aggregation: per-vendor total score

Embedding of the weighted-score computation of
`run_assessment_pipeline` (`backend/services/workflows/assessment_pipeline.py`,
lines 199-240; `run_assessment_pipeline_async` repeats it verbatim at lines
384-423).
-/

namespace AssessmentPipeline

/-- The `(score, weight)` pairs built from the four agent outputs, excluding
`None` scores (pipeline lines 205-214): compliance is weighted by the
`security` importance, finance by `cost`, then interoperability and
adoption. -/
def scoredDimensions (cScore fScore iScore aScore : Option Rat)
    (wSecurity wCost wInterop wAdoption : Nat) : List (Rat × Nat) :=
  (match cScore with | some s => [(s, wSecurity)] | none => []) ++
  (match fScore with | some s => [(s, wCost)] | none => []) ++
  (match iScore with | some s => [(s, wInterop)] | none => []) ++
  (match aScore with | some s => [(s, wAdoption)] | none => [])

/-- The weighted average of pipeline lines 217-226: weighted mean when the
included weights have a positive sum, unweighted mean when they sum to zero,
`None` when no dimension has a score. -/
def computeWeightedScore (cScore fScore iScore aScore : Option Rat)
    (wSecurity wCost wInterop wAdoption : Nat) : Option Rat :=
  let scored := scoredDimensions cScore fScore iScore aScore wSecurity wCost wInterop wAdoption
  if scored ≠ [] then
    let totalWeighted : Rat := (scored.map (fun p => p.1 * (p.2 : Rat))).sum
    let totalWeight : Nat := (scored.map (fun p => p.2)).sum
    if 0 < totalWeight then some (totalWeighted / (totalWeight : Rat))
    else some ((scored.map (fun p => p.1)).sum / (scored.length : Rat))
  else none

/-- The `total_score` field stored on the vendor (pipeline line 237):
`round(weighted_score, 2) if weighted_score is not None else None`. -/
def vendorTotalScore (cScore fScore iScore aScore : Option Rat)
    (wSecurity wCost wInterop wAdoption : Nat) : Option Rat :=
  (computeWeightedScore cScore fScore iScore aScore wSecurity wCost wInterop wAdoption).map
    pyRound2

/-- The exact weighted mean in the words of the specification: the
dimension-importance-weighted mean over the included `(score, weight)` pairs,
falling back to the unweighted mean when the included weights sum to zero.
Stated separately to compare the aggregation of the code against it. -/
def specWeightedMean (scored : List (Rat × Nat)) : Rat :=
  if 0 < ((scored.map (fun p => p.2)).sum : Nat) then
    (scored.map (fun p => p.1 * (p.2 : Rat))).sum
      / ((((scored.map (fun p => p.2)).sum : Nat) : Rat))
  else (scored.map (fun p => p.1)).sum / (scored.length : Rat)

theorem scoredDimensions_eq_nil_iff (cScore fScore iScore aScore : Option Rat)
    (ws wc wi wa : Nat) :
    scoredDimensions cScore fScore iScore aScore ws wc wi wa = [] ↔
      (cScore = none ∧ fScore = none ∧ iScore = none ∧ aScore = none) := by
  cases cScore <;> cases fScore <;> cases iScore <;> cases aScore <;>
    simp [scoredDimensions]

theorem computeWeightedScore_eq (cScore fScore iScore aScore : Option Rat)
    (ws wc wi wa : Nat) :
    computeWeightedScore cScore fScore iScore aScore ws wc wi wa
      = if scoredDimensions cScore fScore iScore aScore ws wc wi wa = [] then none
        else some (specWeightedMean (scoredDimensions cScore fScore iScore aScore ws wc wi wa)) := by
  unfold computeWeightedScore specWeightedMean
  dsimp only
  by_cases hs : scoredDimensions cScore fScore iScore aScore ws wc wi wa = []
  · rw [if_neg (not_not_intro hs), if_pos hs]
  · rw [if_pos hs, if_neg hs, apply_ite some]

end AssessmentPipeline

/-- **C3, counterexample**: the stored `total_score` is the weighted mean
*rounded to two decimals*, not the exact weighted mean.  A reachable vendor
has interoperability output score `3.67` (the rounded `11/3`) and adoption
output score `3`; with importance weights `3` and `1` the exact weighted mean
is `3.5025` but the stored `total_score` is `3.5`. -/
theorem totalScore_not_exact_weighted_mean :
    dimensionOutputOf (InteroperabilityAgent.determineStatusAndScore [⟨"official", ""⟩]
        ["supports a", "supports b", "supports c", "supports d", "e", "f"] [])
      = ("ok", some (367 / 100)) ∧
    dimensionOutputOf (AdoptionAgent.determineStatusAndScore [⟨"official", ""⟩]
        ["training a", "training b", "training c", "x", "y"])
      = ("ok", some 3) ∧
    AssessmentPipeline.vendorTotalScore none none (some (367 / 100)) (some 3) 3 3 3 1
      = some (7 / 2) ∧
    AssessmentPipeline.specWeightedMean
        (AssessmentPipeline.scoredDimensions none none (some (367 / 100)) (some 3) 3 3 3 1)
      = 1401 / 400 ∧
    (7 / 2 : Rat) ≠ 1401 / 400 := by
  decide

/-- **C3, amended**: for every vendor, `total_score` is the
dimension-importance-weighted mean over only the dimensions whose score is
present, *rounded to two decimals* (hence within `0.005` of the exact mean);
if the included weights sum to zero it falls back to the unweighted mean of
the included scores; if all four dimensions are without score it is absent
(`none`), never zero; and a vendor with three score-less dimensions and one
dimension scoring exactly `4.0` has `total_score` exactly `4.0`. -/
theorem totalScore_rounded_weighted_mean (cScore fScore iScore aScore : Option Rat)
    (ws wc wi wa : Nat) :
    (AssessmentPipeline.vendorTotalScore cScore fScore iScore aScore ws wc wi wa = none ↔
      (cScore = none ∧ fScore = none ∧ iScore = none ∧ aScore = none)) ∧
    (AssessmentPipeline.scoredDimensions cScore fScore iScore aScore ws wc wi wa ≠ [] →
      AssessmentPipeline.vendorTotalScore cScore fScore iScore aScore ws wc wi wa
        = some (pyRound2 (AssessmentPipeline.specWeightedMean
            (AssessmentPipeline.scoredDimensions cScore fScore iScore aScore ws wc wi wa)))) ∧
    (∀ m : Rat, |pyRound2 m - m| ≤ 1 / 200) ∧
    AssessmentPipeline.vendorTotalScore (some 4) none none none ws wc wi wa = some 4 := by
  have heq := AssessmentPipeline.computeWeightedScore_eq cScore fScore iScore aScore ws wc wi wa
  have hiff := AssessmentPipeline.scoredDimensions_eq_nil_iff cScore fScore iScore aScore ws wc wi wa
  refine ⟨?_, ?_, pyRound2_close, ?_⟩
  · unfold AssessmentPipeline.vendorTotalScore
    rw [heq]
    by_cases hs : AssessmentPipeline.scoredDimensions cScore fScore iScore aScore ws wc wi wa = []
    · rw [if_pos hs]
      exact ⟨fun _ => hiff.mp hs, fun _ => rfl⟩
    · rw [if_neg hs]
      constructor
      · intro h
        exact absurd h (by simp)
      · intro h
        exact absurd (hiff.mpr h) hs
  · intro hne
    unfold AssessmentPipeline.vendorTotalScore
    rw [heq, if_neg hne]
    rfl
  · unfold AssessmentPipeline.vendorTotalScore
    rw [AssessmentPipeline.computeWeightedScore_eq]
    have hscored : AssessmentPipeline.scoredDimensions (some 4) none none none ws wc wi wa
        = [((4 : Rat), ws)] := rfl
    rw [hscored]
    have hmean : AssessmentPipeline.specWeightedMean [((4 : Rat), ws)] = 4 := by
      unfold AssessmentPipeline.specWeightedMean
      by_cases hw : 0 < ([((4 : Rat), ws)].map (fun p => p.2)).sum
      · rw [if_pos hw]
        simp only [List.map_cons, List.map_nil, List.sum_cons, List.sum_nil]
        have hw0 : ((ws : Nat) : Rat) ≠ 0 := by
          simp only [List.map_cons, List.map_nil, List.sum_cons, List.sum_nil] at hw
          exact_mod_cast Nat.pos_iff_ne_zero.mp (by omega)
        rw [add_zero, Nat.add_zero]
        exact mul_div_cancel_right₀ 4 hw0
      · rw [if_neg hw]
        norm_num
    simp only [if_neg (by simp : ¬([((4 : Rat), ws)] = [])), hmean]
    norm_num [pyRound2, roundHalfEven]

/-- Witness for `totalScore_rounded_weighted_mean` at a concrete input. -/
theorem totalScore_rounded_weighted_mean_witness :
    AssessmentPipeline.vendorTotalScore (some 4) (some 3) none none 2 1 0 0
      = some (pyRound2 (AssessmentPipeline.specWeightedMean
          (AssessmentPipeline.scoredDimensions (some 4) (some 3) none none 2 1 0 0))) :=
  (totalScore_rounded_weighted_mean (some 4) (some 3) none none 2 1 0 0).2.1 (by decide)

/-!
## Source credibility classification

Embedding of `NemotronClient._extract_base_domain` (lines 579-603) and
`NemotronClient._judge_source_credibility` (lines 618-651) of
`backend/services/nemotron_client.py`.
-/

/-- Suffix of the list after the first occurrence of `pat`, if any. -/
def afterSubstr (pat : List Char) : List Char → Option (List Char)
  | [] => if pat.isEmpty then some [] else none
  | c :: rest =>
    if pat.isPrefixOf (c :: rest) then some ((c :: rest).drop pat.length)
    else afterSubstr pat rest

namespace NemotronClient

/-- Embeds `NemotronClient._extract_base_domain`: prefix `https://` when no scheme is
present, take the network location (`urlparse` netloc, falling back to the
path when the netloc is empty), drop every occurrence of `"www."`, and keep
the last two dot-separated labels.  `urlparse` is modelled for http(s) URLs:
the netloc is what follows `"://"` up to the first `/`, `?` or `#`. -/
def extractBaseDomain (url : String) : String :=
  let url1 :=
    if pyStartsWith "http://" url || pyStartsWith "https://" url then url
    else "https://" ++ url
  let rest := (afterSubstr "://".data url1.data).getD []
  let netloc := rest.takeWhile (fun c => !(c = '/' || c = '?' || c = '#'))
  let afterNetloc := rest.drop netloc.length
  let path := afterNetloc.takeWhile (fun c => !(c = '?' || c = '#'))
  let hostname : String := if netloc.isEmpty then ⟨path⟩ else ⟨netloc⟩
  let hostname2 := pyReplace hostname "www." ""
  let parts := pySplitChar hostname2 '.'
  if 2 ≤ parts.length then pyJoin "." (parts.drop (parts.length - 2))
  else hostname2

/-- Embeds the name normalization `vendor_name.lower()` with spaces and hyphens removed. -/
def normalizeVendorName (vendorName : String) : String :=
  pyReplace (pyReplace (pyLower vendorName) " " "") "-" ""

/-- The trusted third-party domain list of `_judge_source_credibility`. -/
def trustedDomains : List String :=
  ["gartner.com", "forrester.com", "g2.com", "capterra.com",
   "techcrunch.com", "zdnet.com", "computerworld.com", "infoworld.com"]

/-- Embeds `NemotronClient._judge_source_credibility`. -/
def judgeSourceCredibility (url vendorName vendorDomain : String) : String :=
  let urlLower := pyLower url
  if vendorDomain ≠ "" ∧ pyIn vendorDomain urlLower = true then "official"
  else if pyIn (normalizeVendorName vendorName) (pyReplace urlLower "-" "") = true then
    "official"
  else if trustedDomains.any (fun d => pyIn d urlLower) = true then "third-party-trusted"
  else "community"

/-- The credibility rule in the words of the specification, stated separately
to compare the code against it: credibility is official iff the registrable
domain of the URL matches the registrable domain of the vendor or, as a fallback,
the normalized vendor name (lowercased, spaces and hyphens removed) appears
in the (lowercased) URL. -/
def specOfficialCredibility (url vendorName vendorDomain : String) : Bool :=
  (extractBaseDomain url == vendorDomain) ||
    pyIn (normalizeVendorName vendorName) (pyLower url)

end NemotronClient

/-- **C5, counterexample**: the code classifies a source as official whenever
the vendor base domain occurs anywhere in the URL as a *substring* — here in
the path of a different site — while the specified rule (registrable-domain
match, or normalized vendor name in the URL) classifies it as not official. -/
theorem credibility_not_registrable_domain_rule :
    NemotronClient.judgeSourceCredibility "https://example.com/slack.com-review"
        "Slack Technologies" "slack.com" = "official" ∧
    NemotronClient.extractBaseDomain "https://example.com/slack.com-review" = "example.com" ∧
    NemotronClient.specOfficialCredibility "https://example.com/slack.com-review"
        "Slack Technologies" "slack.com" = false := by
  decide

/-- **C5, amended**: the credibility of a source is `"official"` iff the vendor
base domain is non-empty and occurs as a substring of the lowercased URL, or
the normalized vendor name (lowercased, spaces and hyphens removed) occurs
in the lowercased URL with hyphens removed. -/
theorem judgeSourceCredibility_official_iff (url vendorName vendorDomain : String) :
    NemotronClient.judgeSourceCredibility url vendorName vendorDomain = "official" ↔
      ((vendorDomain ≠ "" ∧ pyIn vendorDomain (pyLower url) = true) ∨
        pyIn (NemotronClient.normalizeVendorName vendorName)
          (pyReplace (pyLower url) "-" "") = true) := by
  unfold NemotronClient.judgeSourceCredibility
  dsimp only
  split_ifs with h1 h2 h3
  · exact iff_of_true rfl (Or.inl h1)
  · exact iff_of_true rfl (Or.inr h2)
  · exact iff_of_false (by decide) (by tauto)
  · exact iff_of_false (by decide) (by tauto)

/-!
## Requirement-alignment matcher

Embedding of the matching loop of `ComplianceAgent.execute`
(`backend/services/agents/compliance_agent.py`, lines 84-158).
-/

namespace ComplianceAgent

/-- The `variations_map` of `ComplianceAgent.execute` (lines 99-109).  The
last variant of the first entry contains the mojibake characters present in
the source (`"soc 2 (type ‚Ö°)"`). -/
def variationsMap : List (String × List String) :=
  [("soc 2 type ii",
    ["soc2", "soc 2", "soc2 type", "soc type ii", "soc 2 type 2",
     "soc 2 (type ‚Ö°)"]),
   ("sso/saml", ["sso", "saml", "saml 2.0", "single sign-on", "single sign on"]),
   ("iso 27001", ["iso27001", "iso/iec 27001", "iso/iec27001", "iso 27001:2013"]),
   ("gdpr", ["general data protection regulation", "eu gdpr"]),
   ("mfa", ["multi-factor", "multifactor", "two-factor", "2fa", "two factor"]),
   ("rbac", ["role-based", "role based", "role based access", "role-based access control"]),
   ("dpa (data processing agreement)",
    ["dpa", "data processing agreement", "data processing addendum"]),
   ("encryption at rest and in transit",
    ["encryption", "encrypted", "tls", "ssl", "aes-256", "encryption at rest",
     "encryption in transit"]),
   ("audit logs", ["audit log", "audit logging", "audit trail", "audit trail logs"])]

/-- Line 116: `req.lower().replace("soc2", "soc 2")
.replace("type ‚Ö°", "type ii").replace("type 2", "type ii")`. -/
def normalizeReq (req : String) : String :=
  pyReplace (pyReplace (pyReplace (pyLower req) "soc2" "soc 2")
    "type ‚Ö°" "type ii") "type 2" "type ii"

/-- Strategy 1 (lines 118-126): when the requirement contains `"/"`, split on
it and match if any stripped alternative longer than two characters occurs in
the combined findings-and-sources text. -/
def strategySlash (combined normalizedReq : String) : Bool :=
  if pyIn "/" normalizedReq then
    ((pySplitChar normalizedReq '/').map pyStrip).any
      (fun part => decide (2 < part.length) && pyIn part combined)
  else false

/-- Strategy 2 (lines 128-132): look the requirement up in the known-synonym
table after removing parentheses and slashes, and match if any variant occurs
in the combined text. -/
def strategyVariations (combined normalizedReq : String) : Bool :=
  let reqNormalized :=
    pyStrip (pyReplace (pyReplace (pyReplace normalizedReq "(" "") ")" "") "/" " ")
  match variationsMap.find? (fun p => p.1 == reqNormalized) with
  | some p => p.2.any (fun v => pyIn v combined)
  | none => false

/-- Strategy 3 (lines 134-144): for multi-word requirements, require at least
`min 2 (number of words longer than two characters)` of those words to occur
in the combined text. -/
def strategyPhrase (combined normalizedReq : String) : Bool :=
  if 1 < (pySplitWs normalizedReq).length then
    let phrase := pyReplace (pyReplace (pyReplace (pyReplace normalizedReq
      "(" "") ")" "") "/" " ") "-" " "
    let keyParts := (pySplitWs phrase).filter (fun p => decide (2 < p.length))
    if 2 ≤ keyParts.length then
      decide (min 2 keyParts.length ≤
        (keyParts.filter (fun part => pyIn part combined)).length)
    else false
  else false

/-- Strategy 4 (lines 146-152): match if any single word of the requirement
longer than two characters occurs in the combined text. -/
def strategyKeyword (combined normalizedReq : String) : Bool :=
  let reqKeywords :=
    pySplitWs (pyReplace (pyReplace (pyReplace normalizedReq "(" "") ")" "") "/" " ")
  let meaningful := reqKeywords.filter (fun kw => decide (2 < kw.length))
  if meaningful ≠ [] then meaningful.any (fun kw => pyIn kw combined) else false

/-- The whole per-requirement matcher (lines 111-158): the four strategies in
order, short-circuiting on the first match; a requirement matched by none is
`unmet`. -/
def matchRequirement (combined req : String) : Bool :=
  let normalizedReq := normalizeReq req
  strategySlash combined normalizedReq ||
  strategyVariations combined normalizedReq ||
  strategyPhrase combined normalizedReq ||
  strategyKeyword combined normalizedReq

/-- The combined text the matcher searches (lines 85-93):
`" ".join(findings).lower()` concatenated with a space and
`" ".join(s.get("content", "").lower()[:5000] for s in self.sources)`. -/
def buildCombinedContent (findings : List String) (sources : List Source) : String :=
  pyLower (pyJoin " " findings) ++ " " ++
    pyJoin " " (sources.map (fun s => pyTake 5000 (pyLower s.content)))

end ComplianceAgent

/-- **C9**: the alignment matcher marks `"SSO/SAML"` as met given the finding
`"supports SAML 2.0 login"` via the slash-split strategy even though the
literal substring `"sso/saml"` never occurs in the text, and marks
`"SOC 2 Type II"` as met given `"SOC2 Type 2 certified since 2023"` via the
known-synonym table (the slash strategy does not apply there). -/
theorem alignmentMatcher_slash_and_synonym :
    ComplianceAgent.strategySlash
        (ComplianceAgent.buildCombinedContent ["supports SAML 2.0 login"] [])
        (ComplianceAgent.normalizeReq "SSO/SAML") = true ∧
    pyIn "sso/saml"
        (ComplianceAgent.buildCombinedContent ["supports SAML 2.0 login"] []) = false ∧
    ComplianceAgent.matchRequirement
        (ComplianceAgent.buildCombinedContent ["supports SAML 2.0 login"] [])
        "SSO/SAML" = true ∧
    ComplianceAgent.strategySlash
        (ComplianceAgent.buildCombinedContent ["SOC2 Type 2 certified since 2023"] [])
        (ComplianceAgent.normalizeReq "SOC 2 Type II") = false ∧
    ComplianceAgent.strategyVariations
        (ComplianceAgent.buildCombinedContent ["SOC2 Type 2 certified since 2023"] [])
        (ComplianceAgent.normalizeReq "SOC 2 Type II") = true ∧
    ComplianceAgent.matchRequirement
        (ComplianceAgent.buildCombinedContent ["SOC2 Type 2 certified since 2023"] [])
        "SOC 2 Type II" = true := by
  decide

/-!
## Comparison analysis agent

Embedding of `ComparisonAnalysisAgent.execute` (lines 63-252) and
`ComparisonAnalysisAgent._check_insufficient_data_by_vendor` (lines 254-295)
of `backend/services/agents/comparison_analysis_agent.py`.  The
language-model call is the only non-deterministic step; `execute` is
parameterized by its outcome (`Except Unit AnalysisResult`: an exception, or
the parsed JSON analysis).  Building the prompt strings is prose outside the
model; everything the method computes from or writes into the result record is
embedded.
-/

namespace ComparisonAnalysisAgent

/-- The fields of an agent dimension output that this agent reads
(`status`, `score`, `confidence`, with the dict-miss defaults folded in). -/
structure AgentDimOutput where
  status : String
  score : Option Rat
  confidence : String
  deriving DecidableEq

/-- One vendor as seen by this agent: its id and its four agent outputs. -/
structure CAVendor where
  id : String
  compliance : AgentDimOutput
  interoperability : AgentDimOutput
  finance : AgentDimOutput
  adoption : AgentDimOutput
  deriving DecidableEq

/-- The per-vendor `dimension_scores` record. -/
structure DimScores where
  security : Option Rat
  interoperability : Option Rat
  finance : Option Rat
  adoption : Option Rat
  deriving DecidableEq

/-- One dimension section of the per-vendor analysis of the language model;
`none` models a key missing from the JSON object. -/
structure DimSection where
  summary : Option String
  strengths : Option (List String)
  gaps : Option (List String)
  risks : Option (List String)
  deriving DecidableEq

/-- One per-vendor entry of the analysis the language model returns. -/
structure VendorAnalysis where
  headline : Option String
  overview : Option String
  dimension_scores : Option DimScores
  security : Option DimSection
  interoperability : Option DimSection
  finance : Option DimSection
  adoption : Option DimSection
  deriving DecidableEq

/-- The `comparison` section of the analysis. -/
structure ComparisonSection where
  security : String
  interoperability : String
  cost : String
  adoption : String
  deriving DecidableEq

/-- The `final_recommendation` section of the analysis. -/
structure FinalRecommendation where
  recommended_vendor_id : String
  short_reason : String
  detailed_reason : String
  deriving DecidableEq

/-- The full analysis record returned by `execute`. -/
structure AnalysisResult where
  per_vendor : List (String × VendorAnalysis)
  comparison : ComparisonSection
  final_recommendation : FinalRecommendation
  deriving DecidableEq

/-- Embeds `_check_insufficient_data_by_vendor`: a vendor lacks data for a safe
recommendation when its compliance status is `"insufficient_data"`, or its
compliance confidence is `"low"` and the compliance score is `None` or below
`2.0`. -/
def checkInsufficientDataByVendor (vendors : List CAVendor) : List (String × Bool) :=
  vendors.map (fun v =>
    (v.id,
     v.compliance.status == "insufficient_data" ||
       (v.compliance.confidence == "low" &&
         (match v.compliance.score with
          | none => true
          | some s => decide (s < 2)))))

/-- Embeds `dimension_scores_by_vendor.get(vendor_id, ...)` with the per-key `.get`
defaults (lines 101-110 and 205-211). -/
def dimensionScoresByVendor (vendors : List CAVendor) (vendorId : String) : DimScores :=
  match vendors.find? (fun v => v.id == vendorId) with
  | some v => ⟨v.compliance.score, v.interoperability.score, v.finance.score, v.adoption.score⟩
  | none => ⟨none, none, none, none⟩

/-- The per-dimension fill-in of the post-processing loop (lines 218-236):
a missing section becomes the `"Analysis pending"` stub, an existing section
gets defaults for its missing fields. -/
def fillDimSection : Option DimSection → DimSection
  | none => ⟨some "Analysis pending", some [], some [], some []⟩
  | some d =>
    ⟨some (d.summary.getD "Analysis available"), some (d.strengths.getD []),
     some (d.gaps.getD []), some (d.risks.getD [])⟩

/-- The post-processing of one `per_vendor` entry (lines 202-236): fill in
`dimension_scores` when absent, rename `overview` to `headline` when only the
former is present, and normalize the four dimension sections. -/
def postprocessVendor (scores : DimScores) (vd : VendorAnalysis) : VendorAnalysis :=
  let vd1 :=
    if vd.dimension_scores.isNone then { vd with dimension_scores := some scores } else vd
  let vd2 :=
    if vd1.overview.isSome ∧ vd1.headline.isNone then
      { vd1 with headline := vd1.overview, overview := none }
    else vd1
  { vd2 with
    security := some (fillDimSection vd2.security),
    interoperability := some (fillDimSection vd2.interoperability),
    finance := some (fillDimSection vd2.finance),
    adoption := some (fillDimSection vd2.adoption) }

/-- Embeds `_empty_analysis` (lines 280-295). -/
def emptyAnalysis : AnalysisResult :=
  { per_vendor := [],
    comparison :=
      { security := "No comparison available",
        interoperability := "No comparison available",
        cost := "No comparison available",
        adoption := "No comparison available" },
    final_recommendation :=
      { recommended_vendor_id := "",
        short_reason := "Insufficient data for recommendation",
        detailed_reason :=
          "Unable to generate recommendation due to missing vendor data." } }

/-- Embeds `ComparisonAnalysisAgent.execute`, parameterized by the outcome of the
language-model call.  The all-insufficient flag is computed exactly as in the
source, where it is only reported through a progress event; the
`final_recommendation` of a successful model response is returned as-is. -/
def execute (vendors : List CAVendor) (llmResult : Except Unit AnalysisResult) :
    AnalysisResult :=
  if vendors.length < 1 then emptyAnalysis
  else
    let _allInsufficient := (checkInsufficientDataByVendor vendors).all (fun p => p.2)
    match llmResult with
    | .error _ => emptyAnalysis
    | .ok result =>
      { result with
        per_vendor := result.per_vendor.map
          (fun p => (p.1, postprocessVendor (dimensionScoresByVendor vendors p.1) p.2)) }

/-- The failing input for the all-insufficient refusal: a single vendor whose
four dimensions all have status `"insufficient_data"`, no score and low
confidence. -/
def bugVendor : CAVendor :=
  { id := "v1",
    compliance := ⟨"insufficient_data", none, "low"⟩,
    interoperability := ⟨"insufficient_data", none, "low"⟩,
    finance := ⟨"insufficient_data", none, "low"⟩,
    adoption := ⟨"insufficient_data", none, "low"⟩ }

/-- A syntactically valid model response that echoes the template the prompt
pre-fills with the id of the first vendor (line 188 of the source interpolates
the id of vendor 0 as the suggested `recommended_vendor_id` of the requested
JSON skeleton). -/
def bugLlmResponse : AnalysisResult :=
  { per_vendor := [],
    comparison :=
      { security := "n/a", interoperability := "n/a", cost := "n/a", adoption := "n/a" },
    final_recommendation :=
      { recommended_vendor_id := "v1",
        short_reason := "Echoes the template",
        detailed_reason := "Echoes the template" } }

end ComparisonAnalysisAgent

/-- **C4**: evaluation of `ComparisonAnalysisAgent.execute` at the failing
input.  Every compliance dimension is insufficient (the check of the agent
check reports it), yet the returned recommendation is whatever the
language-model response says — here the id of the first vendor, which the prompt
template itself suggests — not the required empty id with a refusal
narrative.  The refusal is only produced on the exception path. -/
theorem allInsufficient_refusal_not_enforced :
    ComparisonAnalysisAgent.checkInsufficientDataByVendor
        [ComparisonAnalysisAgent.bugVendor] = [("v1", true)] ∧
    (ComparisonAnalysisAgent.execute [ComparisonAnalysisAgent.bugVendor]
        (.ok ComparisonAnalysisAgent.bugLlmResponse)).final_recommendation.recommended_vendor_id
      = "v1" ∧
    ("v1" : String) ≠ "" ∧
    (ComparisonAnalysisAgent.execute [ComparisonAnalysisAgent.bugVendor]
        (.error ())).final_recommendation.recommended_vendor_id = "" := by
  decide

/-!
## Throttled search cache

Embedding of `backend/services/search_client.py`: `search_web`
(lines 130-170) and `_throttle_if_needed` (lines 36-48).
-/

namespace SearchClient

/-- One search result (`{title, url, snippet}`). -/
structure SearchResultItem where
  title : String
  url : String
  snippet : String
  deriving DecidableEq

/-- The cache key `(query, max_results, site_hint or "")`. -/
abbrev CacheKey := String × Nat × String

/-- The in-memory cache `_cache`, as an association list (a later insertion
shadows an earlier one, like a dict update). -/
abbrev Cache := List (CacheKey × List SearchResultItem)

/-- Dict lookup in `_cache`. -/
def cacheLookup (cache : Cache) (key : CacheKey) : Option (List SearchResultItem) :=
  (cache.find? (fun p => p.1 == key)).map (fun p => p.2)

/-- Embeds `search_web`, with the upstream provider call modelled by its result
(`upstream`): returns the results, the new cache, and the number of upstream
provider invocations performed (an upper bound on actual HTTP requests, since
`_brave_search` also returns early without a network call when unconfigured).
In the source the miss path runs under `_request_lock` and re-checks the
cache before calling the provider; sequentially the second check repeats the
first. -/
def searchWeb (upstream : List SearchResultItem) (cache : Cache) (query : String)
    (maxResults : Nat) (siteHint : Option String) :
    List SearchResultItem × Cache × Nat :=
  let key : CacheKey := (query, maxResults, siteHint.getD "")
  match cacheLookup cache key with
  | some results => (results, cache, 0)
  | none =>
    match cacheLookup cache key with
    | some results => (results, cache, 0)
    | none => (upstream, (key, upstream) :: cache, 1)

/-- Default of `SEARCH_MIN_INTERVAL` (`float(os.getenv("SEARCH_MIN_INTERVAL",
"1.1"))`). -/
def SEARCH_MIN_INTERVAL : Rat := 11 / 10

/-- Embeds `_throttle_if_needed`, with idealized exact sleeping: given the previous
`_last_request_ts` and the current time, returns the instant at which the
HTTP request is issued (and which becomes the new `_last_request_ts`): when
less than `interval` has elapsed the call sleeps until `last + interval`,
otherwise it proceeds at `now`. -/
def throttleStep (interval last now : Rat) : Rat :=
  if now - last < interval then last + interval else now

/-- The sequence of instants at which `_brave_search` issues its HTTP
requests, for a sequence of uncached calls arriving at the given times,
starting from a given `_last_request_ts`.  The timestamp is global state
shared across all callers, independent of the query. -/
def requestTimes (interval : Rat) : Rat → List Rat → List Rat
  | _, [] => []
  | last, now :: rest =>
    let t := throttleStep interval last now
    t :: requestTimes interval t rest

/-- Each throttled request is issued at least `interval` after the previous
recorded request time. -/
theorem throttleStep_ge (interval last now : Rat) :
    last + interval ≤ throttleStep interval last now := by
  unfold throttleStep
  split_ifs with h
  · exact le_refl _
  · linarith [not_lt.mp h]

theorem requestTimes_last_ge (interval : Rat) :
    ∀ (arrivals : List Rat) (last0 d : Rat), arrivals ≠ [] →
      last0 + (arrivals.length : Rat) * interval
        ≤ (requestTimes interval last0 arrivals).getLastD d := by
  intro arrivals
  induction arrivals with
  | nil => intro _ _ h; exact absurd rfl h
  | cons a rest ih =>
    intro last0 d _
    cases rest with
    | nil =>
      simpa [requestTimes, List.getLastD] using throttleStep_ge interval last0 a
    | cons b rest2 =>
      have hstep := throttleStep_ge interval last0 a
      have hih := ih (throttleStep interval last0 a) (throttleStep interval last0 a)
        (by simp)
      rw [requestTimes]
      rw [List.getLastD_cons]
      have hlen : (((a :: b :: rest2).length : Nat) : Rat)
          = (((b :: rest2).length : Nat) : Rat) + 1 := by
        push_cast [List.length_cons]
        ring
      rw [hlen, add_mul, one_mul]
      linarith

end SearchClient

/-- **C7**: for any two `search_web` calls with identical
`(query, max_results, site_hint)`, at most one upstream provider call is
issued: a hit returns the stored result with no provider call and an
unchanged cache; a miss performs one provider call and stores the result —
even an empty list — under the key; and the second of two identical calls
always hits. -/
theorem searchWeb_cache_idempotent (upstream upstream2 : List SearchClient.SearchResultItem)
    (cache : SearchClient.Cache) (query : String) (maxResults : Nat)
    (siteHint : Option String)
    (stored : List SearchClient.SearchResultItem) :
    (SearchClient.cacheLookup cache (query, maxResults, siteHint.getD "") = some stored →
      SearchClient.searchWeb upstream cache query maxResults siteHint = (stored, cache, 0)) ∧
    (SearchClient.cacheLookup cache (query, maxResults, siteHint.getD "") = none →
      SearchClient.searchWeb upstream cache query maxResults siteHint
        = (upstream, ((query, maxResults, siteHint.getD ""), upstream) :: cache, 1) ∧
      SearchClient.cacheLookup
          (((query, maxResults, siteHint.getD ""), upstream) :: cache)
          (query, maxResults, siteHint.getD "") = some upstream) ∧
    (SearchClient.searchWeb upstream cache query maxResults siteHint).2.2 +
      (SearchClient.searchWeb upstream2
        (SearchClient.searchWeb upstream cache query maxResults siteHint).2.1
        query maxResults siteHint).2.2 ≤ 1 := by
  have hself : SearchClient.cacheLookup
      (((query, maxResults, siteHint.getD ""), upstream) :: cache)
      (query, maxResults, siteHint.getD "") = some upstream := by
    simp [SearchClient.cacheLookup, List.find?]
  refine ⟨?_, ?_, ?_⟩
  · intro h
    unfold SearchClient.searchWeb
    dsimp only
    rw [h]
  · intro h
    refine ⟨?_, hself⟩
    unfold SearchClient.searchWeb
    dsimp only
    rw [h]
  · cases hl : SearchClient.cacheLookup cache (query, maxResults, siteHint.getD "") with
    | some r => simp [SearchClient.searchWeb, hl]
    | none => simp [SearchClient.searchWeb, hl, hself]

/-- Witness for `searchWeb_cache_idempotent` at a concrete input, covering
the empty-result storage clause. -/
theorem searchWeb_cache_idempotent_witness :
    SearchClient.searchWeb [] [] "q" 5 none = ([], [(("q", 5, ""), [])], 1) ∧
    SearchClient.cacheLookup [(("q", 5, ""), [])] ("q", 5, "") = some [] :=
  (searchWeb_cache_idempotent [] [] [] "q" 5 none []).2.1 (by decide)

/-- **C8**: every upstream search request is issued through the global
throttle, at least `interval` after the previous one regardless of the query
(first conjunct); hence `N` back-to-back uncached search calls span at least
`(N - 1) * interval` wall-clock time between the first and the last actual
request (second conjunct, with `N = arrivals.length + 1`). -/
theorem throttle_lower_bound (interval last0 a : Rat) (arrivals : List Rat) :
    (∀ last now : Rat, last + interval ≤ SearchClient.throttleStep interval last now) ∧
    (arrivals.length : Rat) * interval ≤
      (SearchClient.requestTimes interval last0 (a :: arrivals)).getLastD 0 -
        (SearchClient.requestTimes interval last0 (a :: arrivals)).headD 0 := by
  refine ⟨SearchClient.throttleStep_ge interval, ?_⟩
  rw [SearchClient.requestTimes]
  cases arrivals with
  | nil => simp [SearchClient.requestTimes, List.getLastD]
  | cons b rest =>
    have h := SearchClient.requestTimes_last_ge interval (b :: rest)
      (SearchClient.throttleStep interval last0 a)
      (SearchClient.throttleStep interval last0 a) (by simp)
    rw [List.getLastD_cons, List.headD_cons]
    push_cast at h ⊢
    linarith
